import Mathlib

set_option linter.unusedVariables false

/-!
Verification of the OceanBase Oracle dialect
(`src/data_diff/databases/oceanbase_cloud.py`).

The dialect is a stateless set of SQL-rendering rules plus a type
normalizer (`parse_type`).  Rendering functions are embedded directly
from the source as Lean string functions.  Pieces of the repository that
are imported by the file but live outside `src/` (the shared checksum
constants of `data_diff.databases.base`, the `match_regexps` helper of
`data_diff.utils`, the canonical column types of
`data_diff.abcs.database_types`) and the evaluation behaviour of the
database engine on the rendered fragments are modelled from the spec;
every such definition is marked `Modelled from the spec:` in its doc
comment.
-/

/-- Modelled from the spec: shared constant of `data_diff.databases.base`
(not under `src/`): the number of hex digits of an MD5 digest.  The value 32
is forced by the source's own rendering, whose `to_number` format has
exactly `CHECKSUM_HEXDIGITS` x-characters and whose `substr` start position
is `1 + MD5_HEXDIGITS - CHECKSUM_HEXDIGITS`. -/
def MD5_HEXDIGITS : Nat := 32

/-- Modelled from the spec: shared constant of `data_diff.databases.base`
(not under `src/`): the shared digit count every dialect truncates its
digest to.  The value 15 is forced by the 15 x-characters of the
`to_number` format literal in the source's `md5_as_int`. -/
def CHECKSUM_HEXDIGITS : Nat := 15

/-- Modelled from the spec: shared constant of `data_diff.databases.base`
(not under `src/`): mask of the truncated digest space. -/
def CHECKSUM_MASK : Nat := 2 ^ (CHECKSUM_HEXDIGITS * 4) - 1

/-- Modelled from the spec: the shared checksum offset of
`data_diff.databases.base` (not under `src/`) by which every dialect
shifts the truncated digest. -/
def CHECKSUM_OFFSET : Nat := CHECKSUM_MASK / 2

/-- Modelled from the spec: shared constant of `data_diff.databases.base`
(not under `src/`): the character position right after
`YYYY-MM-DD HH24:MI:SS.`, i.e. the length of the date-and-time part of a
normalized timestamp string including the decimal dot (19 + 1). -/
def TIMESTAMP_PRECISION_POS : Nat := 20

/-- Modelled from the spec: canonical timestamp kind of
`data_diff.abcs.database_types` (not under `src/`): a declared
fractional-second precision plus the engine-wide `rounds` policy
("values exceeding the precision are rounded rather than truncated"). -/
structure TemporalType where
  precision : Nat
  rounds : Bool
deriving DecidableEq, Repr

/-- Modelled from the spec: canonical fractional-number kind of
`data_diff.abcs.database_types` (not under `src/`), spec section 3:
`FractionalNumber{precision, scale}`. -/
structure FractionalType where
  precision : Nat
  scale : Nat
deriving DecidableEq, Repr

/-- Modelled from the spec: the canonical column types of spec section 3:
fractional number, text, timestamp, timestamp-with-zone, UUID. -/
inductive ColType where
  | fractionalNumber (t : FractionalType)
  | text
  | timestamp (t : TemporalType)
  | timestampTZ (t : TemporalType)
  | uuid
deriving DecidableEq, Repr

/-- The temporal payload of a timestamp-kind canonical type, if any. -/
def ColType.temporal? : ColType → Option TemporalType
  | ColType.timestamp t => some t
  | ColType.timestampTZ t => some t
  | _ => none

/-- Modelled from the spec: `RawColumnInfo` of `data_diff.schema`
(not under `src/`): the engine-reported column description, with the
fields the source file reads (`column_name`, `data_type`) and the ones its
own `select_table_schema` query produces. -/
structure RawColumnInfo where
  column_name : String
  data_type : Option String
  datetime_precision : Option Nat
  numeric_precision : Option Nat
  numeric_scale : Option Nat

/-- A table path: ordered identifier components (schema, table). -/
abbrev DbPath : Type := List String

/-- Python truthiness of an `Optional[int]`: `None` and `0` are falsy. -/
def pyTruthyInt : Option Int → Bool
  | none => false
  | some n => n != 0

/-- Python string interpolation of an `Optional[int]` value: `None`
renders as the text `None`, an integer as its decimal form. -/
def pyStr : Option Int → String
  | none => "None"
  | some n => toString n

/-- Python `repr` of an `Optional[str]`, as interpolated by the warning
message of `parse_type`. -/
def pyRepr : Option String → String
  | none => "None"
  | some s => "'" ++ s ++ "'"

/-- The double-quote character. -/
def dquote : Char := Char.ofNat 34

/-- `Dialect.ROUNDS_ON_PREC_LOSS`: this engine rounds on precision loss. -/
def Dialect.ROUNDS_ON_PREC_LOSS : Bool := true

/-- `Dialect.PLACEHOLDER_TABLE`. -/
def Dialect.PLACEHOLDER_TABLE : String := "DUAL"

/-- `Dialect.quote`: wrap the identifier in double quotes. -/
def Dialect.quote (s : String) : String :=
  String.mk [dquote] ++ s ++ String.mk [dquote]

/-- `Dialect.to_string`: cast an expression to a fixed-width text type. -/
def Dialect.to_string (s : String) : String :=
  "cast(" ++ s ++ " as varchar(1024))"

/-- `Dialect.limit_select`: wrap a query in the engine's row-limiting
syntax.  A truthy `offset` raises
`NotImplementedError("OFFSET is not supported in OceanBase Oracle mode")`,
modelled as `Except.error` carrying the message. -/
def Dialect.limit_select (select_query : String) (offset : Option Int)
    (limit : Option Int) (has_order_by : Option Bool) : Except String String :=
  if pyTruthyInt offset then
    Except.error "OFFSET is not supported in OceanBase Oracle mode"
  else
    Except.ok ("SELECT * FROM (" ++ select_query ++ ") FETCH NEXT "
      ++ pyStr limit ++ " ROWS ONLY")

/-- `Dialect.concat`: string concatenation of an ordered sequence. -/
def Dialect.concat (items : List String) : String :=
  "(" ++ String.intercalate " || " items ++ ")"

/-- `Dialect.random`. -/
def Dialect.random : String := "dbms_random.value"

/-- `Dialect.is_distinct_from`: NULL-safe inequality via `DECODE`. -/
def Dialect.is_distinct_from (a b : String) : String :=
  "DECODE(" ++ a ++ ", " ++ b ++ ", 1, 0) = 0"

/-- `Dialect.md5_as_int`: render a truncated, offset MD5 digest of the
value as an integer expression. -/
def Dialect.md5_as_int (s : String) : String :=
  "to_number(substr(DBMS_CRYPTO.Hash(utl_raw.cast_to_raw(" ++ s ++ "),2), "
    ++ toString (1 + MD5_HEXDIGITS - CHECKSUM_HEXDIGITS)
    ++ "), 'xxxxxxxxxxxxxxx') - " ++ toString CHECKSUM_OFFSET

/-- `Dialect.md5_as_hex`: render the raw MD5 digest of the value. -/
def Dialect.md5_as_hex (s : String) : String :=
  "DBMS_CRYPTO.Hash(utl_raw.cast_to_raw(" ++ s ++ "), 2)"

/-- `Dialect.normalize_uuid`. -/
def Dialect.normalize_uuid (value : String) : String :=
  "CAST(TRIM(" ++ value ++ ") AS VARCHAR(36))"

/-- `Dialect.normalize_timestamp`: rounding types are cast to
`timestamp(precision)` and formatted with `FF6`; non-rounding types are
formatted at their own precision and right-padded with zeros to
`TIMESTAMP_PRECISION_POS + 6` characters. -/
def Dialect.normalize_timestamp (value : String) (coltype : TemporalType) : String :=
  if coltype.rounds then
    "to_char(cast(" ++ value ++ " as timestamp(" ++ toString coltype.precision
      ++ ")), 'YYYY-MM-DD HH24:MI:SS.FF6')"
  else
    let truncated :=
      if coltype.precision > 0 then
        "to_char(" ++ value ++ ", 'YYYY-MM-DD HH24:MI:SS.FF"
          ++ toString coltype.precision ++ "')"
      else
        "to_char(" ++ value ++ ", 'YYYY-MM-DD HH24:MI:SS.')"
    "RPAD(" ++ truncated ++ ", " ++ toString (TIMESTAMP_PRECISION_POS + 6) ++ ", '0')"

/-- `Dialect.normalize_number`: render with an Oracle `FM` number format
of `38 - precision` leading 9-positions and, when the precision is
non-zero, a forced `0.` followed by `precision` fractional positions
ending in a forced `0`. -/
def Dialect.normalize_number (value : String) (coltype : FractionalType) : String :=
  let format_str := "FM" ++ String.mk (List.replicate (38 - coltype.precision) (Char.ofNat 57))
  let format_str :=
    if coltype.precision ≠ 0 then
      format_str ++ "0." ++ String.mk (List.replicate (coltype.precision - 1) (Char.ofNat 57)) ++ "0"
    else format_str
  "to_char(" ++ value ++ ", '" ++ format_str ++ "')"

/-- `Dialect.set_timezone_to_utc`. -/
def Dialect.set_timezone_to_utc : String := "ALTER SESSION SET TIME_ZONE = 'UTC'"

/-- `Dialect.current_timestamp`. -/
def Dialect.current_timestamp : String := "LOCALTIMESTAMP"

/-- Drop a literal pattern from the front of a character list; `none`
when the list does not start with the pattern. -/
def dropPre : List Char → List Char → Option (List Char)
  | [], s => some s
  | _ :: _, [] => none
  | p :: ps, c :: cs => if c = p then dropPre ps cs else none

/-- Modelled from the spec: matching one pattern of the ordered rule
table.  Each of the three patterns of the source has the shape
`PRE(\d)POST`; per spec section 4.1 the raw type string is matched
against the pattern from the start (a generic pattern also accepts a
longer string it is a prefix of, which is why the specific patterns must
come first).  Returns the captured group (the digit character). -/
def reMatchDigit (pre post s : List Char) : Option Char :=
  match dropPre pre s with
  | none => none
  | some rest =>
    match rest with
    | [] => none
    | c :: rest2 =>
      if c.isDigit then
        match dropPre post rest2 with
        | none => none
        | some _ => some c
      else none

/-- Modelled from the spec: `match_regexps` of `data_diff.utils` (not
under `src/`): walk the ordered pattern table, first match wins,
yielding the match (its captured digit character) and the rule's
constructor. -/
def match_regexps {α : Type} : List ((List Char × List Char) × α) → List Char →
    Option (Char × α)
  | [], _ => none
  | (pat, v) :: rest, s =>
    match reMatchDigit pat.1 pat.2 s with
    | some c => some (c, v)
    | none => match_regexps rest s

/-- Model of Python `int()` applied to the captured group text: succeeds
exactly on a digit character. -/
def int_ (c : Char) : Except String Nat :=
  if c.isDigit then Except.ok (c.toNat - 48) else Except.error "invalid literal for int()"

/-- The ordered pattern table of `Dialect.parse_type`:
`TIMESTAMP(\d) WITH LOCAL TIME ZONE` to `Timestamp`,
`TIMESTAMP(\d) WITH TIME ZONE` to `TimestampTZ`,
`TIMESTAMP(\d)` to `Timestamp`. -/
def Dialect.regexps : List ((List Char × List Char) × (Nat → Bool → ColType)) :=
  [(("TIMESTAMP(".data, ") WITH LOCAL TIME ZONE".data),
      fun p r => ColType.timestamp ⟨p, r⟩),
   (("TIMESTAMP(".data, ") WITH TIME ZONE".data),
      fun p r => ColType.timestampTZ ⟨p, r⟩),
   (("TIMESTAMP(".data, ")".data),
      fun p r => ColType.timestamp ⟨p, r⟩)]

/-- The outcome of the pattern-rule loop of `Dialect.parse_type` on a raw
type string: `none` when no rule matches (the source then falls through
to the base-class mapping), otherwise the constructed type — or the
error of the `int()` conversion of the captured group. -/
def Dialect.parse_type_rules (s : List Char) : Option (Except String ColType) :=
  (match_regexps Dialect.regexps s).map fun mc =>
    (int_ mc.1).map fun precision => mc.2 precision Dialect.ROUNDS_ON_PREC_LOSS

/-- The local variable `data_type_str` of `Dialect.parse_type`:
`str(info.data_type)` when the field is present, the empty string when it
is `None`. -/
def data_type_str (info : RawColumnInfo) : String :=
  match info.data_type with
  | some s => s
  | none => ""

/-- `Dialect.parse_type`: returns the printed warning lines and the
result.  A missing, empty, or literal `None` raw type string is warned
about and deferred to the base-class mapping `base` (the generic
column-type inference of `data_diff.databases.base`, not under `src/`,
which the spec declares total); otherwise the ordered pattern table is
tried, and on no match the base mapping is used. -/
def Dialect.parse_type (base : DbPath → RawColumnInfo → ColType)
    (table_path : DbPath) (info : RawColumnInfo) :
    List String × Except String ColType :=
  if data_type_str info = "" ∨ data_type_str info = "None" then
    (["[WARN] Unexpected data_type for column '" ++ info.column_name ++ "': "
        ++ pyRepr info.data_type],
     Except.ok (base table_path info))
  else
    match match_regexps Dialect.regexps (data_type_str info).data with
    | some (m, t_cls) =>
      ([], (int_ m).map fun precision => t_cls precision Dialect.ROUNDS_ON_PREC_LOSS)
    | none => ([], Except.ok (base table_path info))

/-- The connection arguments built by `OceanBaseOracle.__init__`. -/
structure ConnArgs where
  jclassname : String
  url : String
  driver_args : List String
  jars : String

/-- `OceanBaseOracle.__init__`: the `conn_args` dictionary. -/
def OceanBaseOracle.init_conn_args (host : String) (port : Int)
    (database user password driver jar : String) : ConnArgs :=
  { jclassname := driver
    url := "jdbc:oceanbase://" ++ host ++ ":" ++ toString port ++ "/" ++ database
    driver_args := [user, password]
    jars := jar }

/-- The filesystem path `OceanBaseOracle.create_connection` assigns to
`jvm_path`. -/
def OceanBaseOracle.jvm_path : String :=
  "/Library/Java/JavaVirtualMachines/zulu-8.jdk/Contents/Home/jre/lib/server/libjvm.dylib"

/-- `OceanBaseOracle.create_connection`, restricted to its bridge-runtime
start step: the `(jvmPath, arguments)` pair passed to `jpype.startJVM`
when the JVM is not yet started, `none` when it already is. -/
def OceanBaseOracle.create_connection_startJVM_args (conn_args : ConnArgs)
    (jvmStarted : Bool) : Option (String × List String) :=
  if jvmStarted then none
  else some (OceanBaseOracle.jvm_path,
    ["-ea", "-Djava.class.path=" ++ conn_args.jars])

/-- Modelled from the spec: one hexadecimal digit character (uppercase,
as the engine displays RAW values) of `n % 16`. -/
def hexChar (n : Nat) : Char :=
  if n % 16 < 10 then Char.ofNat (48 + n % 16) else Char.ofNat (55 + n % 16)

/-- Numeric value of a hexadecimal digit character, as the engine's
`to_number` with an all-x format reads it. -/
def hexVal (c : Char) : Nat :=
  if 65 ≤ c.toNat then c.toNat - 55 else c.toNat - 48

/-- Modelled from the spec: the fixed-width big-endian hexadecimal
rendering of a digest value: `w` hex characters, most significant
first. -/
def hexBE : Nat → Nat → List Char
  | 0, _ => []
  | w + 1, v => hexBE w (v / 16) ++ [hexChar v]

/-- Reading a hexadecimal character list as a number. -/
def hexToNat (s : List Char) : Nat :=
  s.foldl (fun a c => 16 * a + hexVal c) 0

/-- Modelled from the spec: the engine's `substr(s, pos)`: the characters
from the 1-based position `pos` to the end. -/
def substr_sem (s : List Char) (pos : Nat) : List Char := s.drop (pos - 1)

/-- Modelled from the spec: the integer the engine computes for the
expression rendered by `Dialect.md5_as_int`, as a function of the MD5
digest `d` of the argument's bytes: the digest's 32-character hex
rendering, cut from position `1 + MD5_HEXDIGITS - CHECKSUM_HEXDIGITS`,
read back as a hex number, minus `CHECKSUM_OFFSET`. -/
def md5_as_int_sem (d : Nat) : Int :=
  (hexToNat (substr_sem (hexBE MD5_HEXDIGITS d)
      (1 + MD5_HEXDIGITS - CHECKSUM_HEXDIGITS)) : Int)
    - (CHECKSUM_OFFSET : Int)

/-- Modelled from the spec: the text the engine computes for the
expression rendered by `Dialect.md5_as_hex`: the full fixed-width
hexadecimal rendering of the MD5 digest. -/
def md5_as_hex_sem (d : Nat) : List Char := hexBE MD5_HEXDIGITS d

/-- Modelled from the spec: what every supported dialect's `hash_to_int`
evaluates to, per spec sections 4.2 and 8: the MD5 digest truncated to
the shared `CHECKSUM_HEXDIGITS` width and offset by the shared
`CHECKSUM_OFFSET`. -/
def spec_hash_to_int (d : Nat) : Int :=
  ((d % 16 ^ CHECKSUM_HEXDIGITS : Nat) : Int) - (CHECKSUM_OFFSET : Int)

/-- Modelled from the spec: an abstract timestamp value as the engine
formats it: the 19-character `YYYY-MM-DD HH24:MI:SS` date-and-time part
and the list of stored fractional-second digits. -/
structure TsVal where
  datePart : List Char
  frac : List Nat

/-- A decimal digit character. -/
def digitChar (d : Nat) : Char := Char.ofNat (48 + d % 10)

/-- Truncate or zero-pad a digit list on the right to exactly `p`
digits. -/
def padTruncDigits (p : Nat) (ds : List Nat) : List Nat :=
  ds.take p ++ List.replicate (p - (ds.take p).length) 0

/-- Modelled from the spec: the engine's `to_char` with format
`YYYY-MM-DD HH24:MI:SS.FFp` (`p ≥ 1`): the date part, a dot, and exactly
`p` fractional digits. -/
def to_char_ff_sem (v : TsVal) (p : Nat) : List Char :=
  v.datePart ++ Char.ofNat 46 :: (padTruncDigits p v.frac).map digitChar

/-- Modelled from the spec: the engine's `to_char` with format
`YYYY-MM-DD HH24:MI:SS.`: the date part and the trailing dot. -/
def to_char_dot_sem (v : TsVal) : List Char := v.datePart ++ [Char.ofNat 46]

/-- Modelled from the spec: `cast(v as timestamp(p))` keeps the date part
and reduces the stored fractional digits to `p`.  Digit rounding is
modelled as truncation of the digit list: a rounding carry changes digit
values (occasionally including the date part) but never the number of
rendered characters, which is all the claims below depend on. -/
def cast_timestamp_sem (v : TsVal) (p : Nat) : TsVal :=
  ⟨v.datePart, v.frac.take p⟩

/-- Modelled from the spec: the engine's `RPAD(s, n, c)`: right-pad `s`
with `c` to `n` characters, truncating when `s` is longer. -/
def rpad_sem (s : List Char) (n : Nat) (c : Char) : List Char :=
  (s ++ List.replicate (n - s.length) c).take n

/-- Modelled from the spec: the text the engine computes for the
expression rendered by `Dialect.normalize_timestamp`, branch for branch:
rounding types are cast to `timestamp(precision)` and formatted with
`FF6`; non-rounding types are formatted at their own precision (or with
the bare trailing dot at precision 0) and right-padded with zeros to
`TIMESTAMP_PRECISION_POS + 6` characters. -/
def normalize_timestamp_sem (v : TsVal) (coltype : TemporalType) : List Char :=
  if coltype.rounds then
    to_char_ff_sem (cast_timestamp_sem v coltype.precision) 6
  else if coltype.precision > 0 then
    rpad_sem (to_char_ff_sem v coltype.precision) (TIMESTAMP_PRECISION_POS + 6) (Char.ofNat 48)
  else
    rpad_sem (to_char_dot_sem v) (TIMESTAMP_PRECISION_POS + 6) (Char.ofNat 48)

/-- Modelled from the spec: an abstract fractional numeric value as the
engine formats it: integer-part digits (most significant first) and
fractional-part digits. -/
structure DecVal where
  intDigits : List Nat
  fracDigits : List Nat

/-- Leading zeros, as suppressed by the 9-positions of an FM number
format. -/
def stripLeadingZeros : List Nat → List Nat
  | [] => []
  | d :: ds => if d = 0 then stripLeadingZeros ds else d :: ds

/-- The integer part as printed by an `FM9...90.` format: no padding
blanks, no leading zeros, but at least the one forced digit. -/
def intPartChars (ds : List Nat) : List Char :=
  match stripLeadingZeros ds with
  | [] => [Char.ofNat 48]
  | l => l.map digitChar

/-- Modelled from the spec: the text the engine computes for the
expression rendered by `Dialect.normalize_number` at declared precision
`p`: the unpadded integer part and, when `p ≠ 0`, a dot and exactly `p`
fractional digits, zero-padded on the right (digit rounding beyond `p`
is modelled as truncation; it never changes the width). -/
def normalize_number_sem (v : DecVal) (coltype : FractionalType) : List Char :=
  intPartChars v.intDigits ++
    (if coltype.precision ≠ 0 then
      Char.ofNat 46 :: (padTruncDigits coltype.precision v.fracDigits).map digitChar
    else [])

/-- Collect characters up to the next double quote; `none` when no
closing quote exists. -/
def takeUntilQuote : List Char → Option (List Char × List Char)
  | [] => none
  | c :: cs =>
    if c = dquote then some ([], cs)
    else
      match takeUntilQuote cs with
      | some (ident, rest) => some (c :: ident, rest)
      | none => none

/-- Modelled from the spec: the engine's own unquoting of a quoted
identifier, spec section 4.2: read the opening double quote, then the
identifier up to the closing double quote; anything after the closing
quote is leftover input.  Round-tripping means the whole quoted text
parses back to exactly the original name with no leftover. -/
def parseQuotedIdent (s : List Char) : Option (List Char × List Char) :=
  match s with
  | [] => none
  | c :: cs => if c = dquote then takeUntilQuote cs else none

theorem hexVal_hexChar (v : Nat) : hexVal (hexChar v) = v % 16 := by
  have key : ∀ m, m < 16 → hexVal (hexChar m) = m := by decide
  have h2 : hexChar v = hexChar (v % 16) := by
    unfold hexChar
    rw [Nat.mod_mod_of_dvd v (dvd_refl 16)]
  rw [h2, key _ (Nat.mod_lt _ (by decide))]

theorem hexBE_length (w : Nat) : ∀ v, (hexBE w v).length = w := by
  induction w with
  | zero => intro v; rfl
  | succ w ih => intro v; simp [hexBE, ih]

theorem hexBE_split (a b v : Nat) :
    hexBE (a + b) v = hexBE a (v / 16 ^ b) ++ hexBE b v := by
  induction b generalizing v with
  | zero => simp [hexBE]
  | succ b ih =>
    show hexBE (a + b) (v / 16) ++ [hexChar v] = _
    rw [ih (v / 16), Nat.div_div_eq_div_mul]
    show hexBE a (v / (16 * 16 ^ b)) ++ hexBE b (v / 16) ++ [hexChar v] = _
    rw [List.append_assoc]
    congr 2
    rw [pow_succ, Nat.mul_comm]

theorem hexToNat_append_singleton (l : List Char) (c : Char) :
    hexToNat (l ++ [c]) = 16 * hexToNat l + hexVal c := by
  simp [hexToNat, List.foldl_append]

theorem hexToNat_hexBE (w : Nat) : ∀ v, hexToNat (hexBE w v) = v % 16 ^ w := by
  induction w with
  | zero => intro v; simp [hexBE, hexToNat, Nat.mod_one]
  | succ w ih =>
    intro v
    show hexToNat (hexBE w (v / 16) ++ [hexChar v]) = _
    rw [hexToNat_append_singleton, ih, hexVal_hexChar, pow_succ', Nat.mod_mul]
    omega

theorem drop_len_append {α : Type} (l₁ l₂ : List α) {n : Nat} (h : l₁.length = n) :
    (l₁ ++ l₂).drop n = l₂ := by
  subst h
  exact List.drop_left l₁ l₂

theorem md5_as_int_sem_eq_spec (d : Nat) : md5_as_int_sem d = spec_hash_to_int d := by
  unfold md5_as_int_sem spec_hash_to_int substr_sem
  have hpos : 1 + MD5_HEXDIGITS - CHECKSUM_HEXDIGITS - 1 = 17 := by decide
  have hsplit : MD5_HEXDIGITS = 17 + CHECKSUM_HEXDIGITS := by decide
  rw [hpos, hsplit, hexBE_split 17 CHECKSUM_HEXDIGITS d,
    drop_len_append _ _ (hexBE_length 17 (d / 16 ^ CHECKSUM_HEXDIGITS)),
    hexToNat_hexBE]

theorem padTruncDigits_length (p : Nat) (ds : List Nat) :
    (padTruncDigits p ds).length = p := by
  simp [padTruncDigits]

theorem rpad_sem_length (s : List Char) (n : Nat) (c : Char) :
    (rpad_sem s n c).length = n := by
  simp [rpad_sem]
  omega

theorem dropPre_append (p s : List Char) : dropPre p (p ++ s) = some s := by
  induction p with
  | nil => rfl
  | cons c cs ih => simp [dropPre, ih]

theorem match_regexps_cons {α : Type} (pre post : List Char) (v : α)
    (rest : List ((List Char × List Char) × α)) (s : List Char) :
    match_regexps (((pre, post), v) :: rest) s =
      match reMatchDigit pre post s with
      | some c => some (c, v)
      | none => match_regexps rest s := rfl

theorem reMatchDigit_isDigit {pre post s : List Char} {c : Char}
    (h : reMatchDigit pre post s = some c) : c.isDigit = true := by
  unfold reMatchDigit at h
  repeat' split at h
  all_goals simp_all

theorem match_regexps_isDigit {α : Type} {rules : List ((List Char × List Char) × α)}
    {s : List Char} {c : Char} {v : α}
    (h : match_regexps rules s = some (c, v)) : c.isDigit = true := by
  induction rules with
  | nil => exact absurd h (by simp [match_regexps])
  | cons head tail ih =>
    obtain ⟨pat, v0⟩ := head
    unfold match_regexps at h
    split at h
    · rename_i c0 hm
      cases h
      exact reMatchDigit_isDigit hm
    · exact ih h

theorem takeUntilQuote_no_quote (l : List Char) (h : dquote ∉ l) :
    takeUntilQuote (l ++ [dquote]) = some (l, []) := by
  induction l with
  | nil => simp [takeUntilQuote]
  | cons c cs ih =>
    have hc : c ≠ dquote := fun hc => h (hc ▸ List.mem_cons_self c cs)
    have hcs : dquote ∉ cs := fun hm => h (List.mem_cons_of_mem c hm)
    simp [takeUntilQuote, hc, ih hcs]

/-- C1: cross-engine checksum agreement: for every MD5 digest function
and every byte content `v`, the integer this dialect's rendered
`md5_as_int` expression evaluates to on its engine
(`md5_as_int_sem`: substring of the 32-digit hex rendering from position
`1 + MD5_HEXDIGITS - CHECKSUM_HEXDIGITS`, read as hex, minus
`CHECKSUM_OFFSET`) equals the shared digest every supported dialect's
`hash_to_int` computes on its engine (`spec_hash_to_int`: the MD5 digest
truncated to the shared `CHECKSUM_HEXDIGITS` width, offset by the shared
`CHECKSUM_OFFSET`) — identical byte content yields identical integers
across engines. -/
theorem md5_as_int_cross_engine_agreement (md5 : List Nat → Nat) (v : List Nat) :
    md5_as_int_sem (md5 v) = spec_hash_to_int (md5 v) :=
  md5_as_int_sem_eq_spec (md5 v)

/-- C2 counterexample: an offset of `0` is explicitly requested, yet
`limit_select` does not fail: the source's truthiness test treats `0`
like `None`, silently drops it, and emits SQL. -/
theorem limit_select_offset_zero_ok_counterexample :
    Dialect.limit_select "SELECT 1" (some 0) (some 5) none =
      Except.ok "SELECT * FROM (SELECT 1) FETCH NEXT 5 ROWS ONLY" := by rfl

/-- C2 (amended): whenever a nonzero offset is requested, `limit_select`
fails with the unsupported-operation error and emits no SQL text; an
offset of `0` is falsy in the source's test and is treated as "no
offset", like `None`. -/
theorem limit_select_nonzero_offset_errors (q : String) (k : Int)
    (lim : Option Int) (ob : Option Bool) (hk : k ≠ 0) :
    Dialect.limit_select q (some k) lim ob =
      Except.error "OFFSET is not supported in OceanBase Oracle mode" := by
  simp [Dialect.limit_select, pyTruthyInt, hk]

/-- C2 witness: the amended theorem at offset 1. -/
theorem limit_select_nonzero_offset_errors_witness :
    (1 : Int) ≠ 0 ∧
    Dialect.limit_select "SELECT 1" (some 1) (some 5) none =
      Except.error "OFFSET is not supported in OceanBase Oracle mode" :=
  ⟨by decide, limit_select_nonzero_offset_errors "SELECT 1" 1 (some 5) none (by decide)⟩

/-- C5: `normalize_timestamp` always evaluates to a text of the fixed
width `TIMESTAMP_PRECISION_POS + 6`, whatever the number of stored
fractional-second digits, and for rounding types the rendered SQL first
casts the value to `timestamp(precision)` before formatting. -/
theorem normalize_timestamp_fixed_width (value : String) (coltype : TemporalType)
    (v : TsVal) (hdate : v.datePart.length = 19) :
    (normalize_timestamp_sem v coltype).length = TIMESTAMP_PRECISION_POS + 6 ∧
    (coltype.rounds = true →
      Dialect.normalize_timestamp value coltype =
        "to_char(cast(" ++ value ++ " as timestamp(" ++ toString coltype.precision
          ++ ")), 'YYYY-MM-DD HH24:MI:SS.FF6')") := by
  constructor
  · unfold normalize_timestamp_sem
    by_cases hr : coltype.rounds
    · rw [if_pos hr]
      unfold to_char_ff_sem cast_timestamp_sem
      simp [padTruncDigits_length, hdate, TIMESTAMP_PRECISION_POS]
    · rw [if_neg hr]
      by_cases hp : coltype.precision > 0
      · rw [if_pos hp]; exact rpad_sem_length _ _ _
      · rw [if_neg hp]; exact rpad_sem_length _ _ _
  · intro hr
    simp [Dialect.normalize_timestamp, hr]

/-- C5 witness: the fixed-width theorem at a concrete timestamp value
and a rounding column type of precision 3. -/
theorem normalize_timestamp_fixed_width_witness :
    ("2022-06-03 12:24:35".data.length = 19) ∧
    ((normalize_timestamp_sem ⟨"2022-06-03 12:24:35".data, [1]⟩ ⟨3, true⟩).length =
        TIMESTAMP_PRECISION_POS + 6 ∧
      ((⟨3, true⟩ : TemporalType).rounds = true →
        Dialect.normalize_timestamp "x" ⟨3, true⟩ =
          "to_char(cast(" ++ "x" ++ " as timestamp("
            ++ toString (⟨3, true⟩ : TemporalType).precision
            ++ ")), 'YYYY-MM-DD HH24:MI:SS.FF6')")) :=
  ⟨by decide,
   normalize_timestamp_fixed_width "x" ⟨3, true⟩
     ⟨"2022-06-03 12:24:35".data, [1]⟩ (by decide)⟩

/-- C6 counterexample: at one and the same declared column type, two
values with different integer-part widths evaluate to texts of different
lengths — the output of `normalize_number` is not fixed-width as claimed
(1.5 renders as `1.5000`, 10.5 as `10.5000`). -/
theorem normalize_number_not_fixed_width_counterexample :
    ¬ (normalize_number_sem ⟨[1], [5]⟩ ⟨4, 2⟩).length =
      (normalize_number_sem ⟨[1, 0], [5]⟩ ⟨4, 2⟩).length := by decide

/-- C6 (amended): `normalize_number` renders a decimal text whose
fractional field is exactly the declared precision wide and zero-padded
on the right past the stored digits; the full text is not fixed-width,
since the FM format renders the integer part without padding.  At the
claim's example the rendered format is `FM9...90.9990` and the value 1.5
evaluates to `1.5000`, the zero-padded fixed-fraction rendering of
1.50. -/
theorem normalize_number_fraction_fixed_width (v : DecVal) (ct : FractionalType)
    (hp : ct.precision ≠ 0) :
    (∃ fracField,
      normalize_number_sem v ct =
        intPartChars v.intDigits ++ Char.ofNat 46 :: fracField ∧
      fracField.length = ct.precision ∧
      (v.fracDigits.length ≤ ct.precision →
        fracField.drop v.fracDigits.length =
          List.replicate (ct.precision - v.fracDigits.length) (Char.ofNat 48))) ∧
    Dialect.normalize_number "1.5" ⟨4, 2⟩ =
      "to_char(1.5, 'FM" ++ String.mk (List.replicate 34 (Char.ofNat 57)) ++ "0.9990')" ∧
    normalize_number_sem ⟨[1], [5]⟩ ⟨4, 2⟩ = "1.5000".data := by
  refine ⟨⟨(padTruncDigits ct.precision v.fracDigits).map digitChar, ?_, ?_, ?_⟩, ?_, ?_⟩
  · simp [normalize_number_sem, hp]
  · simp [padTruncDigits_length]
  · intro hle
    have htake : v.fracDigits.take ct.precision = v.fracDigits :=
      List.take_of_length_le hle
    unfold padTruncDigits
    rw [htake, List.map_append, List.map_replicate,
      drop_len_append _ _ (by simp)]
    rfl
  · rfl
  · decide

/-- C6 witness: the amended theorem at the claim's example input. -/
theorem normalize_number_fraction_fixed_width_witness :
    ((⟨4, 2⟩ : FractionalType).precision ≠ 0) ∧
    ((∃ fracField,
      normalize_number_sem ⟨[1], [5]⟩ ⟨4, 2⟩ =
        intPartChars [1] ++ Char.ofNat 46 :: fracField ∧
      fracField.length = (⟨4, 2⟩ : FractionalType).precision ∧
      ([5].length ≤ (⟨4, 2⟩ : FractionalType).precision →
        fracField.drop [5].length =
          List.replicate ((⟨4, 2⟩ : FractionalType).precision - [5].length)
            (Char.ofNat 48))) ∧
    Dialect.normalize_number "1.5" ⟨4, 2⟩ =
      "to_char(1.5, 'FM" ++ String.mk (List.replicate 34 (Char.ofNat 57)) ++ "0.9990')" ∧
    normalize_number_sem ⟨[1], [5]⟩ ⟨4, 2⟩ = "1.5000".data) :=
  ⟨by decide, normalize_number_fraction_fixed_width ⟨[1], [5]⟩ ⟨4, 2⟩ (by decide)⟩

/-- C7 counterexample: the text rendered by `md5_as_hex` evaluates to
the full 32-digit MD5 hex string: it is not truncated to the shared
`CHECKSUM_HEXDIGITS` digit count as the claim states. -/
theorem md5_as_hex_not_truncated_counterexample :
    ¬ (md5_as_hex_sem 0).length = CHECKSUM_HEXDIGITS := by decide

/-- C7 (amended): `md5_as_hex` renders the same underlying digest as
`md5_as_int` as a fixed-length hexadecimal string — but at the full
`MD5_HEXDIGITS` (32) width, with no truncation to `CHECKSUM_HEXDIGITS`
and no `CHECKSUM_OFFSET` shift; the integer form is recovered from the
hex form by keeping its last `CHECKSUM_HEXDIGITS` digits and subtracting
`CHECKSUM_OFFSET`. -/
theorem md5_as_hex_full_digest_relation (d : Nat) :
    (md5_as_hex_sem d).length = MD5_HEXDIGITS ∧
    md5_as_int_sem d =
      (hexToNat ((md5_as_hex_sem d).drop (MD5_HEXDIGITS - CHECKSUM_HEXDIGITS)) : Int)
        - (CHECKSUM_OFFSET : Int) := by
  exact ⟨hexBE_length MD5_HEXDIGITS d, rfl⟩

/-- C8 counterexample: `quote` embeds a double quote of the identifier
raw; the engine's unquoting of the quoted form of `a"b` stops at the
embedded quote, yielding the identifier `a` with dangling input `b"` —
the round trip fails and the query structure is corrupted. -/
theorem quote_roundtrip_counterexample :
    parseQuotedIdent ((Dialect.quote (String.mk ['a', dquote, 'b'])).data) =
        some (['a'], ['b', dquote]) ∧
    ¬ parseQuotedIdent ((Dialect.quote (String.mk ['a', dquote, 'b'])).data) =
        some ((String.mk ['a', dquote, 'b']).data, []) := by
  constructor <;> decide

/-- C8 (amended): for every identifier that does not contain the
dialect's quote character, unquoting `quote n` yields exactly `n` with
no leftover input; `quote` neither escapes nor rejects an embedded
double quote (see the counterexample), so the round trip holds exactly
on quote-free names. -/
theorem quote_roundtrip_without_quote_char (n : String) (h : dquote ∉ n.data) :
    parseQuotedIdent ((Dialect.quote n).data) = some (n.data, []) := by
  have hdata : (Dialect.quote n).data = dquote :: (n.data ++ [dquote]) := by
    simp [Dialect.quote, String.data_append]
  rw [hdata]
  simp [parseQuotedIdent, takeUntilQuote_no_quote n.data h]

/-- C8 witness: the round trip at the identifier `abc`. -/
theorem quote_roundtrip_witness :
    dquote ∉ "abc".data ∧
    parseQuotedIdent ((Dialect.quote "abc").data) = some ("abc".data, []) :=
  ⟨by decide, quote_roundtrip_without_quote_char "abc" (by decide)⟩

/-- C9: `create_connection` starts the bridge runtime with a compiled-in
filesystem path: whatever the connection configuration, the JVM path
passed to `jpype.startJVM` on the first connection of the process is the
hardcoded `/Library/Java/...` development default, never an externally
supplied value — the code contradicts the claim, which the spec itself
flags as an open question that must become mandatory configuration. -/
theorem create_connection_uses_hardcoded_jvm_path (conn_args : ConnArgs) :
    (OceanBaseOracle.create_connection_startJVM_args conn_args false).map Prod.fst =
      some "/Library/Java/JavaVirtualMachines/zulu-8.jdk/Contents/Home/jre/lib/server/libjvm.dylib" :=
  rfl

/-- C3: `parse_type` is total: for every base mapping, table path and raw
column description — including one whose raw type string is missing,
empty, or the literal text `None` — it returns a canonical column type
and never raises (in particular the `int()` conversion of the captured
pattern group cannot fail, because the group is always a digit); and a
missing or empty raw type string is warned about and mapped through the
default (base) path. -/
theorem parse_type_total_and_default_on_missing :
    (∀ base tp info, ∃ c, (Dialect.parse_type base tp info).2 = Except.ok c) ∧
    (∀ base tp info,
      (info.data_type = none ∨ info.data_type = some "" ∨ info.data_type = some "None") →
      Dialect.parse_type base tp info =
        (["[WARN] Unexpected data_type for column '" ++ info.column_name ++ "': "
            ++ pyRepr info.data_type],
         Except.ok (base tp info))) := by
  constructor
  · intro base tp info
    unfold Dialect.parse_type
    by_cases hcond : data_type_str info = "" ∨ data_type_str info = "None"
    · rw [if_pos hcond]
      exact ⟨base tp info, rfl⟩
    · rw [if_neg hcond]
      cases hm : match_regexps Dialect.regexps (data_type_str info).data with
      | none => exact ⟨base tp info, rfl⟩
      | some mc =>
        obtain ⟨m, t_cls⟩ := mc
        have hdig : m.isDigit = true := match_regexps_isDigit hm
        refine ⟨t_cls (m.toNat - 48) Dialect.ROUNDS_ON_PREC_LOSS, ?_⟩
        simp [int_, hdig, Except.map]
  · intro base tp info hmiss
    rcases hmiss with h | h | h <;> simp [Dialect.parse_type, data_type_str, h]

/-- C3 witness: totality and the default path at a concrete synthetic
column whose raw type string is missing. -/
theorem parse_type_total_witness :
    (∃ c, (Dialect.parse_type (fun _ _ => ColType.text) []
        ⟨"syn", none, none, none, none⟩).2 = Except.ok c) ∧
    Dialect.parse_type (fun _ _ => ColType.text) []
        ⟨"syn", none, none, none, none⟩ =
      (["[WARN] Unexpected data_type for column 'syn': " ++ pyRepr none],
       Except.ok ColType.text) :=
  ⟨parse_type_total_and_default_on_missing.1 (fun _ _ => ColType.text) []
      ⟨"syn", none, none, none, none⟩,
   parse_type_total_and_default_on_missing.2 (fun _ _ => ColType.text) []
      ⟨"syn", none, none, none, none⟩ (Or.inl rfl)⟩

/-- C4: first match wins in pattern order: for every digit character `d`,
a raw type string of the form `TIMESTAMP(d) WITH TIME ZONE` parses to the
timestamp-with-zone canonical type with precision `d` — not to the plain
timestamp of the generic `TIMESTAMP(d)` rule that appears later in the
table. -/
theorem parse_type_tz_before_generic (d : Char) (hd : d.isDigit = true)
    (base : DbPath → RawColumnInfo → ColType) (tp : DbPath)
    (name : String) (dtp np ns : Option Nat) :
    Dialect.parse_type base tp
      { column_name := name
        data_type := some (String.mk ("TIMESTAMP(".data ++ d :: ") WITH TIME ZONE".data))
        datetime_precision := dtp
        numeric_precision := np
        numeric_scale := ns } =
      ([], Except.ok (ColType.timestampTZ ⟨d.toNat - 48, true⟩)) := by
  have hne : ¬(data_type_str
      { column_name := name
        data_type := some (String.mk ("TIMESTAMP(".data ++ d :: ") WITH TIME ZONE".data))
        datetime_precision := dtp
        numeric_precision := np
        numeric_scale := ns } = "" ∨ data_type_str
      { column_name := name
        data_type := some (String.mk ("TIMESTAMP(".data ++ d :: ") WITH TIME ZONE".data))
        datetime_precision := dtp
        numeric_precision := np
        numeric_scale := ns } = "None") := by
    rintro (h | h)
    · have h3 : "TIMESTAMP(".data ++ d :: ") WITH TIME ZONE".data = ([] : List Char) :=
        congrArg String.data h
      simp at h3
    · have h3 : "TIMESTAMP(".data ++ d :: ") WITH TIME ZONE".data =
          ['N', 'o', 'n', 'e'] := congrArg String.data h
      have e1 : "TIMESTAMP(".data = 'T' :: "IMESTAMP(".data := rfl
      rw [e1, List.cons_append] at h3
      exact absurd (List.cons_eq_cons.mp h3).1 (by decide)
  have e1 : dropPre (") WITH LOCAL TIME ZONE".data) (") WITH TIME ZONE".data) =
      none := by decide
  have e2 : dropPre (") WITH TIME ZONE".data) (") WITH TIME ZONE".data) =
      some [] := by decide
  have r1 : reMatchDigit "TIMESTAMP(".data ") WITH LOCAL TIME ZONE".data
      ("TIMESTAMP(".data ++ d :: ") WITH TIME ZONE".data) = none := by
    unfold reMatchDigit
    rw [dropPre_append]
    show (if d.isDigit = true then
        match dropPre (") WITH LOCAL TIME ZONE".data) (") WITH TIME ZONE".data) with
        | none => none
        | some _ => some d
      else none) = none
    rw [hd, e1]
    simp
  have r2 : reMatchDigit "TIMESTAMP(".data ") WITH TIME ZONE".data
      ("TIMESTAMP(".data ++ d :: ") WITH TIME ZONE".data) = some d := by
    unfold reMatchDigit
    rw [dropPre_append]
    show (if d.isDigit = true then
        match dropPre (") WITH TIME ZONE".data) (") WITH TIME ZONE".data) with
        | none => none
        | some _ => some d
      else none) = some d
    rw [hd, e2]
    simp
  have hmatch : match_regexps Dialect.regexps
      ("TIMESTAMP(".data ++ d :: ") WITH TIME ZONE".data) =
      some (d, fun p r => ColType.timestampTZ ⟨p, r⟩) := by
    unfold Dialect.regexps
    rw [match_regexps_cons, r1, match_regexps_cons, r2]
  unfold Dialect.parse_type
  rw [if_neg hne]
  have hds : (data_type_str
      { column_name := name
        data_type := some (String.mk ("TIMESTAMP(".data ++ d :: ") WITH TIME ZONE".data))
        datetime_precision := dtp
        numeric_precision := np
        numeric_scale := ns }).data =
      "TIMESTAMP(".data ++ d :: ") WITH TIME ZONE".data := rfl
  rw [hds, hmatch]
  simp [int_, hd, Except.map, Dialect.ROUNDS_ON_PREC_LOSS]

/-- C4 witness: the pattern-order theorem at the digit 3. -/
theorem parse_type_tz_before_generic_witness :
    ('3'.isDigit = true) ∧
    Dialect.parse_type (fun _ _ => ColType.text) []
      { column_name := "c"
        data_type := some (String.mk ("TIMESTAMP(".data ++ '3' :: ") WITH TIME ZONE".data))
        datetime_precision := none
        numeric_precision := none
        numeric_scale := none } =
      ([], Except.ok (ColType.timestampTZ ⟨'3'.toNat - 48, true⟩)) :=
  ⟨by decide,
   parse_type_tz_before_generic '3' (by decide) (fun _ _ => ColType.text) []
     "c" none none none⟩

/-- C10: every timestamp-kind type produced by this dialect's own
pattern rules carries `rounds = true` (the class constant
`ROUNDS_ON_PREC_LOSS`), so `normalize_timestamp` takes the rounding
(cast) branch on every type the dialect itself parses — its RPAD branch
is unreachable for those types; and whenever the rules fire inside
`parse_type` on a present raw type string, their result is exactly what
`parse_type` returns. -/
theorem parse_type_rules_always_round :
    (∀ s ty, Dialect.parse_type_rules s = some (Except.ok ty) →
      ∃ t, ty.temporal? = some t ∧ t.rounds = true ∧
        ∀ value, Dialect.normalize_timestamp value t =
          "to_char(cast(" ++ value ++ " as timestamp(" ++ toString t.precision
            ++ ")), 'YYYY-MM-DD HH24:MI:SS.FF6')") ∧
    (∀ base tp info r, ¬(data_type_str info = "" ∨ data_type_str info = "None") →
      Dialect.parse_type_rules (data_type_str info).data = some r →
      Dialect.parse_type base tp info = ([], r)) := by
  have hctor : ∀ {s : List Char} {c : Char} {ctor : Nat → Bool → ColType},
      match_regexps Dialect.regexps s = some (c, ctor) →
      ctor = (fun p r => ColType.timestamp ⟨p, r⟩) ∨
      ctor = (fun p r => ColType.timestampTZ ⟨p, r⟩) := by
    intro s c ctor h
    unfold Dialect.regexps at h
    rw [match_regexps_cons, match_regexps_cons, match_regexps_cons] at h
    repeat' split at h
    all_goals simp_all [match_regexps]
  constructor
  · intro s ty h
    unfold Dialect.parse_type_rules at h
    cases hm : match_regexps Dialect.regexps s with
    | none => rw [hm] at h; exact absurd h (by simp)
    | some mc =>
      obtain ⟨c, ctor⟩ := mc
      rw [hm] at h
      have hdig : c.isDigit = true := match_regexps_isDigit hm
      simp [int_, hdig, Except.map] at h
      rcases hctor hm with hc | hc <;>
        (subst hc
         dsimp only at h
         subst h
         exact ⟨_, rfl, rfl, fun value => by
           simp [Dialect.normalize_timestamp, Dialect.ROUNDS_ON_PREC_LOSS]⟩)
  · intro base tp info r hne h
    unfold Dialect.parse_type_rules at h
    unfold Dialect.parse_type
    rw [if_neg hne]
    cases hm : match_regexps Dialect.regexps (data_type_str info).data with
    | none => rw [hm] at h; exact absurd h (by simp)
    | some mc =>
      obtain ⟨c, ctor⟩ := mc
      rw [hm] at h
      simp only [Option.map_some'] at h
      rw [Option.some.injEq] at h
      show ([], Except.map (fun precision => ctor precision Dialect.ROUNDS_ON_PREC_LOSS)
        (int_ c)) = ([], r)
      rw [h]

/-- C10 witness: the rules at the raw type string `TIMESTAMP(3)` produce
a rounding timestamp type, on which `normalize_timestamp` takes the cast
branch. -/
theorem parse_type_rules_always_round_witness :
    Dialect.parse_type_rules ("TIMESTAMP(3)".data) =
        some (Except.ok (ColType.timestamp ⟨3, true⟩)) ∧
    (∃ t, (ColType.timestamp ⟨3, true⟩).temporal? = some t ∧ t.rounds = true ∧
      ∀ value, Dialect.normalize_timestamp value t =
        "to_char(cast(" ++ value ++ " as timestamp(" ++ toString t.precision
          ++ ")), 'YYYY-MM-DD HH24:MI:SS.FF6')") :=
  ⟨rfl, parse_type_rules_always_round.1 ("TIMESTAMP(3)".data)
    (ColType.timestamp ⟨3, true⟩) rfl⟩
